import Mathlib

/-!
Verification of the ZomboDB document-synchronization and retrieval engine
(`src/c/elasticsearch/elasticsearch.c`, `src/c/scoring/scoring.c`).

The C code is shallowly embedded: buffers are tracked by their byte length,
remote requests become records of the flags and parameters each claim is
about, and the remote search backend's responses are supplied as explicit
inputs.  The transport layer (`rest_multi_*`) is not part of the provided
sources; where its behaviour matters it is modelled from the spec and marked
as such in the doc comment.
-/

/- ------------------------------------------------------------------ -/
/- Shared constants                                                    -/
/- ------------------------------------------------------------------ -/

/-- `#define MAX_DOCS_PER_REQUEST 10000` — an ES limit introduced around
Elasticsearch v5 (elasticsearch.c line 32). -/
def MAX_DOCS_PER_REQUEST : Nat := 10000

/- ------------------------------------------------------------------ -/
/- Scroll open: page size and sort policy                              -/
/- ------------------------------------------------------------------ -/

/-- Sort direction, from Postgres' `SortByDir` as used by
`ElasticsearchOpenScroll`. -/
inductive SortByDir where
  | SORTBY_DEFAULT
  | SORTBY_ASC
  | SORTBY_DESC
  deriving Repr, DecidableEq

/-- The page size placed in the `size=` parameter of the initial search
request: `limit == 0 ? MAX_DOCS_PER_REQUEST : limit`
(elasticsearch.c line 703). -/
def scrollRequestSize (limit : Nat) : Nat :=
  if limit = 0 then MAX_DOCS_PER_REQUEST else limit

/-- Outcome of the sort-resolution prologue of `ElasticsearchOpenScroll`. -/
structure ScrollSortResolution where
  needSort : Bool
  needScore : Bool
  sortField : Option String
  direction : SortByDir
  deriving Repr, DecidableEq

/-- Sort resolution performed at the top of `ElasticsearchOpenScroll`
(elasticsearch.c lines 656-666): scoring is forced on when a limit is
given; an explicit sort field forces sorting and is kept as given;
otherwise, when sorting is needed the default field is `_score` with a
descending default direction if scoring is wanted, else `zdb_ctid` with an
ascending default direction. -/
def resolve_scroll_sort (needSort needScore : Bool) (limit : Nat)
    (sortField : Option String) (direction : SortByDir) : ScrollSortResolution :=
  let needScore := needScore || decide (limit > 0)
  match sortField with
  | some f => { needSort := true, needScore := needScore, sortField := some f,
                direction := direction }
  | none =>
    if needSort then
      let f := if needScore then "_score" else "zdb_ctid"
      let d := if direction = SortByDir.SORTBY_DEFAULT then
                 (if needScore then SortByDir.SORTBY_DESC else SortByDir.SORTBY_ASC)
               else direction
      { needSort := true, needScore := needScore, sortField := some f, direction := d }
    else
      { needSort := false, needScore := needScore, sortField := none,
        direction := direction }

/- ------------------------------------------------------------------ -/
/- Transaction visibility ledger: batch removal of aborted xids        -/
/- ------------------------------------------------------------------ -/

/-- One `_update` request against the ledger document, as built by
`ElasticsearchRemoveAbortedTransactions` (elasticsearch.c lines 862-897). -/
structure LedgerUpdateRequest where
  docId : String
  xids : List Nat
  retryOnConflict : Nat
  refresh : Bool
  deriving Repr, DecidableEq

/-- `ElasticsearchRemoveAbortedTransactions(indexRel, xids)`: when the list
is non-empty, issue one `_update` against `zdb_aborted_xids` whose script
is `removeAll(params.XIDS)` with `retry_on_conflict=128&refresh=true`;
when the list is empty, do nothing (elasticsearch.c lines 862-897). -/
def ElasticsearchRemoveAbortedTransactions (xids : List Nat) : Option LedgerUpdateRequest :=
  if xids.length > 0 then
    some { docId := "zdb_aborted_xids", xids := xids, retryOnConflict := 128,
           refresh := true }
  else
    none

/-- Modelled from the spec: the effect of the painless
`zdb_aborted_xids.removeAll(params.XIDS)` script on the remote ledger
document (the script itself runs inside Elasticsearch and is not part of
the provided sources).  Removal is a set difference: every listed id is
dropped and removing an absent id is a no-op. -/
def ledgerRemoveAll (ledger : List Nat) (xids : List Nat) : List Nat :=
  ledger.filter (fun x => decide (x ∉ xids))

/- ------------------------------------------------------------------ -/
/- Scoring support (scoring.c)                                         -/
/- ------------------------------------------------------------------ -/

/-- One entry of the global `scoreEntries` registry
(`ZDBScoringSupportData`, scoring.c lines 30-34).  A callback takes the
row's ctid and its registered `callback_data` argument; scores are modelled
as exact rationals in place of `float4`. -/
structure ZDBScoringSupportData where
  heapOid : Nat
  callbacks : List (Nat → Nat → ℚ)
  callback_data : List Nat

/-- `scoring_register_callback` (scoring.c lines 75-100): scan the registry
for an entry with the same `heapOid`; if found, append the callback and its
data to that entry's parallel lists; otherwise append a brand-new entry at
the end of the registry. -/
def scoring_register_callback (heapOid : Nat) (cb : Nat → Nat → ℚ) (arg : Nat) :
    List ZDBScoringSupportData → List ZDBScoringSupportData
  | [] => [{ heapOid := heapOid, callbacks := [cb], callback_data := [arg] }]
  | e :: rest =>
    if heapOid = e.heapOid then
      { e with callbacks := e.callbacks ++ [cb],
               callback_data := e.callback_data ++ [arg] } :: rest
    else
      e :: scoring_register_callback heapOid cb arg rest

/-- `scoring_lookup_score` (scoring.c lines 102-120): starting from `0.0`,
for every registry entry whose `heapOid` matches, add the value of each
callback paired with its data (`forboth` over the two parallel lists). -/
def scoring_lookup_score (entries : List ZDBScoringSupportData)
    (heapOid : Nat) (ctid : Nat) : ℚ :=
  entries.foldl
    (fun score entry =>
      if heapOid = entry.heapOid then
        (entry.callbacks.zip entry.callback_data).foldl
          (fun sc cb => sc + cb.1 ctid cb.2) score
      else score)
    0

/- ------------------------------------------------------------------ -/
/- Bulk mutation pipeline (elasticsearch.c lines 44-605)               -/
/- ------------------------------------------------------------------ -/

/-- The observable part of one `_bulk` POST built by `bulk_prologue`
(elasticsearch.c lines 367-374): whether the URL carries
`&wait_for_active_shards=all` and whether it carries `&refresh=true`. -/
structure BulkRequest where
  waitForActiveShards : Bool
  refresh : Bool
  deriving Repr, DecidableEq

/-- `ElasticsearchBulkContext` (state relevant to the bulk pipeline).
`pool` holds `some len` for an available buffer of byte length `len` and
`none` for a checked-out slot; `currentLen`/`currentIdx` are the current
`PostDataEntry`'s buffer length and `pool_idx`; `inFlight` lists the pool
indices of buffers handed to `rest_multi_call`, in dispatch order;
`requests` logs every `_bulk` request issued so far. -/
structure BulkState where
  batchSize : Nat
  shouldRefresh : Bool
  concurrency : Nat
  pool : List (Option Nat)
  currentLen : Nat
  currentIdx : Nat
  nrows : Nat
  ntotal : Nat
  nrequests : Nat
  nindex : Nat
  nupdate : Nat
  ndelete : Nat
  nvacuum : Nat
  nxid : Nat
  waitForActiveShards : Bool
  inFlight : List Nat
  requests : List BulkRequest
  deriving Repr, DecidableEq

/-- Linear scan of `checkout_batch_pool` (elasticsearch.c lines 44-61):
find the first non-empty slot, hand out its buffer together with its slot
index, and mark the slot empty.  `none` when every slot is empty. -/
def checkout_scan : List (Option Nat) → Option (Nat × Nat × List (Option Nat))
  | [] => none
  | some b :: rest => some (b, 0, none :: rest)
  | none :: rest =>
    (checkout_scan rest).map (fun r => (r.1, r.2.1 + 1, none :: r.2.2))

/-- `checkout_batch_pool` (elasticsearch.c lines 44-61): fatal error when
the scan finds no free slot. -/
def checkout_batch_pool (pool : List (Option Nat)) :
    Except String (Nat × Nat × List (Option Nat)) :=
  match checkout_scan pool with
  | some r => Except.ok r
  | none => Except.error "Unable to checkout from batch pool"

/-- Modelled from the spec: the non-blocking poll
`rest_multi_perform` / `rest_multi_partial_cleanup(rest, false, true)` run
at the top of `bulk_prologue` (the transport layer `rest/rest.c` is not
among the provided sources).  Per the spec it reclaims "any now-completed
in-flight requests back into the pool"; `done` says which in-flight pool
indices have completed, and each reclaimed buffer returns to its slot
reset to length 0. -/
def rest_multi_reclaim (done : Nat → Bool) (s : BulkState) : BulkState :=
  { s with
    inFlight := s.inFlight.filter (fun i => !done i),
    pool := (s.inFlight.filter (fun i => done i)).foldl
              (fun p i => p.set i (some 0)) s.pool }

/-- The flush predicate of `bulk_prologue` (elasticsearch.c line 353),
minus the terminal-drain disjunct:
`context->current->buff->len >= context->batchSize ||
 context->nrows == MAX_DOCS_PER_REQUEST`. -/
def flushDue (s : BulkState) : Bool :=
  s.batchSize ≤ s.currentLen || s.nrows == MAX_DOCS_PER_REQUEST

/-- `bulk_prologue` (elasticsearch.c lines 349-385): poll/reclaim completed
in-flight requests, then, when the buffer is over the byte threshold, the
row count has hit `MAX_DOCS_PER_REQUEST`, or this is the terminal call,
issue one `_bulk` request carrying `wait_for_active_shards` iff the
session flag is set and `refresh=true` iff this is the terminal call of a
refresh-disabled session that has issued no prior request; reset the row
count, and (unless terminal) check out a fresh buffer. -/
def bulk_prologue (done : Nat → Bool) (s : BulkState) (is_final : Bool) :
    Except String BulkState :=
  let s := rest_multi_reclaim done s
  if flushDue s || is_final then
    let req : BulkRequest :=
      { waitForActiveShards := s.waitForActiveShards,
        refresh := is_final && s.shouldRefresh && s.nrequests == 0 }
    let s := { s with
               requests := s.requests ++ [req],
               inFlight := s.inFlight ++ [s.currentIdx],
               nrows := 0,
               nrequests := s.nrequests + 1 }
    if is_final then Except.ok s
    else
      match checkout_batch_pool s.pool with
      | Except.error e => Except.error e
      | Except.ok r =>
        Except.ok { s with pool := r.2.2, currentLen := r.1, currentIdx := r.2.1 }
  else
    Except.ok s

/-- `bulk_epilogue` (elasticsearch.c lines 387-390). -/
def bulk_epilogue (s : BulkState) : BulkState :=
  { s with nrows := s.nrows + 1, ntotal := s.ntotal + 1 }

/-- `ElasticsearchStartBulkProcess` (elasticsearch.c lines 305-347):
allocate `bulkConcurrency + 1` empty pool buffers and check the first one
out as the current accumulation buffer. -/
def ElasticsearchStartBulkProcess (batchSize concurrency : Nat)
    (shouldRefresh : Bool) : Except String BulkState :=
  match checkout_batch_pool (List.replicate (concurrency + 1) (some 0)) with
  | Except.error e => Except.error e
  | Except.ok r =>
    Except.ok
      { batchSize := batchSize, shouldRefresh := shouldRefresh,
        concurrency := concurrency, pool := r.2.2,
        currentLen := r.1, currentIdx := r.2.1,
        nrows := 0, ntotal := 0, nrequests := 0,
        nindex := 0, nupdate := 0, ndelete := 0, nvacuum := 0, nxid := 0,
        waitForActiveShards := false, inFlight := [], requests := [] }

/-- `ElasticsearchBulkInsertRow` (elasticsearch.c lines 392-450): prologue,
append the `{"index":...}` action pair (`recLen` bytes), bump `nindex`,
epilogue.  -/
def ElasticsearchBulkInsertRow (done : Nat → Bool) (recLen : Nat) (s : BulkState) :
    Except String BulkState :=
  match bulk_prologue done s false with
  | Except.error e => Except.error e
  | Except.ok s =>
    Except.ok (bulk_epilogue
      { s with currentLen := s.currentLen + recLen, nindex := s.nindex + 1 })

/-- `ElasticsearchBulkUpdateTuple` (elasticsearch.c lines 452-469):
prologue, append the cmax/xmax upsert script pair, bump `nupdate`,
epilogue. -/
def ElasticsearchBulkUpdateTuple (done : Nat → Bool) (recLen : Nat) (s : BulkState) :
    Except String BulkState :=
  match bulk_prologue done s false with
  | Except.error e => Except.error e
  | Except.ok s =>
    Except.ok (bulk_epilogue
      { s with currentLen := s.currentLen + recLen, nupdate := s.nupdate + 1 })

/-- `ElasticsearchBulkVacuumXmax` (elasticsearch.c lines 471-486):
prologue, append the compare-and-swap xmax-clearing script pair, bump
`nvacuum`, epilogue.  Note: this function does not touch
`waitForActiveShards`. -/
def ElasticsearchBulkVacuumXmax (done : Nat → Bool) (recLen : Nat) (s : BulkState) :
    Except String BulkState :=
  match bulk_prologue done s false with
  | Except.error e => Except.error e
  | Except.ok s =>
    Except.ok (bulk_epilogue
      { s with currentLen := s.currentLen + recLen, nvacuum := s.nvacuum + 1 })

/-- `ElasticsearchBulkDeleteRowByXmin` (elasticsearch.c lines 488-506):
set `waitForActiveShards` before running the prologue, append the
conditional-delete-by-xmin script pair, bump `ndelete`, epilogue. -/
def ElasticsearchBulkDeleteRowByXmin (done : Nat → Bool) (recLen : Nat)
    (s : BulkState) : Except String BulkState :=
  let s := { s with waitForActiveShards := true }
  match bulk_prologue done s false with
  | Except.error e => Except.error e
  | Except.ok s =>
    Except.ok (bulk_epilogue
      { s with currentLen := s.currentLen + recLen, ndelete := s.ndelete + 1 })

/-- `ElasticsearchBulkDeleteRowByXmax` (elasticsearch.c lines 508-526):
set `waitForActiveShards` before running the prologue, append the
conditional-delete-by-xmax script pair, bump `ndelete`, epilogue. -/
def ElasticsearchBulkDeleteRowByXmax (done : Nat → Bool) (recLen : Nat)
    (s : BulkState) : Except String BulkState :=
  let s := { s with waitForActiveShards := true }
  match bulk_prologue done s false with
  | Except.error e => Except.error e
  | Except.ok s =>
    Except.ok (bulk_epilogue
      { s with currentLen := s.currentLen + recLen, ndelete := s.ndelete + 1 })

/-- `ElasticsearchBulkMarkTransactionInProgress` (elasticsearch.c lines
528-542): prologue, append the aborted-xids upsert pair, bump `nxid`,
epilogue. -/
def ElasticsearchBulkMarkTransactionInProgress (done : Nat → Bool) (recLen : Nat)
    (s : BulkState) : Except String BulkState :=
  match bulk_prologue done s false with
  | Except.error e => Except.error e
  | Except.ok s =>
    Except.ok (bulk_epilogue
      { s with currentLen := s.currentLen + recLen, nxid := s.nxid + 1 })

/-- `ElasticsearchBulkMarkTransactionCommitted` (elasticsearch.c lines
544-558): appends the xid-removal script pair directly to the current
buffer and bumps `nxid` — it calls neither `bulk_prologue` nor
`bulk_epilogue`. -/
def ElasticsearchBulkMarkTransactionCommitted (recLen : Nat) (s : BulkState) :
    BulkState :=
  { s with currentLen := s.currentLen + recLen, nxid := s.nxid + 1 }

/-- `ElasticsearchFinishBulkProcess` (elasticsearch.c lines 560-605): when
the current buffer is non-empty, run the terminal `bulk_prologue`; wait for
every in-flight request to complete; then report (as the returned `Bool`)
whether the explicit full-index `_refresh` is issued, which happens exactly
when the refresh interval is disabled and more than one `_bulk` request was
issued. -/
def ElasticsearchFinishBulkProcess (done : Nat → Bool) (s : BulkState) :
    Except String (BulkState × Bool) :=
  match (if s.currentLen > 0 then bulk_prologue done s true else Except.ok s) with
  | Except.error e => Except.error e
  | Except.ok s1 =>
    let s2 := { s1 with inFlight := [] }
    Except.ok (s2, s2.shouldRefresh && decide (s2.nrequests > 1))

/-- The mutation-append operations of a bulk session, each carrying the
byte length of the wire record it appends. -/
inductive BulkOp where
  | insertRow (recLen : Nat)
  | updateTuple (recLen : Nat)
  | vacuumXmax (recLen : Nat)
  | deleteRowByXmin (recLen : Nat)
  | deleteRowByXmax (recLen : Nat)
  | markInProgress (recLen : Nat)
  | markCommitted (recLen : Nat)
  deriving Repr, DecidableEq

/-- Byte length of the record a `BulkOp` appends. -/
def BulkOp.recLen : BulkOp → Nat
  | .insertRow L => L
  | .updateTuple L => L
  | .vacuumXmax L => L
  | .deleteRowByXmin L => L
  | .deleteRowByXmax L => L
  | .markInProgress L => L
  | .markCommitted L => L

/-- Dispatch one mutation-append operation. -/
def applyBulkOp (op : BulkOp) (done : Nat → Bool) (s : BulkState) :
    Except String BulkState :=
  match op with
  | .insertRow L => ElasticsearchBulkInsertRow done L s
  | .updateTuple L => ElasticsearchBulkUpdateTuple done L s
  | .vacuumXmax L => ElasticsearchBulkVacuumXmax done L s
  | .deleteRowByXmin L => ElasticsearchBulkDeleteRowByXmin done L s
  | .deleteRowByXmax L => ElasticsearchBulkDeleteRowByXmax done L s
  | .markInProgress L => ElasticsearchBulkMarkTransactionInProgress done L s
  | .markCommitted L => Except.ok (ElasticsearchBulkMarkTransactionCommitted L s)

/-- Run a sequence of mutation appends, each paired with the completion
oracle observed by its poll. -/
def runBulkOps : List (BulkOp × (Nat → Bool)) → BulkState → Except String BulkState
  | [], s => Except.ok s
  | (op, done) :: rest, s =>
    match applyBulkOp op done s with
    | Except.error e => Except.error e
    | Except.ok s1 => runBulkOps rest s1

/-- Number of pool slots currently checked out (empty slots). -/
def checkedOutCount (s : BulkState) : Nat :=
  s.pool.countP (fun x => x.isNone)

/- ------------------------------------------------------------------ -/
/- Scroll cursor engine (elasticsearch.c lines 645-831)                -/
/- ------------------------------------------------------------------ -/

/-- The fields of a `_search`/`_search/scroll` response that the cursor
consumes: the continuation token, the total hit count (initial response
only) and the page of hits (`null` modelled as `none`).  Hits are
identified by their decoded `zdb_ctid` value. -/
structure SearchResponse where
  scrollId : Nat
  total : Nat
  hits : Option (List Nat)
  deriving Repr, DecidableEq

/-- `ElasticsearchScrollContext` (iteration state over one open scroll).
`pages` is the sequence of responses the backend will return to future
continuation fetches, each a pair of the new continuation token and the
page of hits; `nfetches` counts continuation fetches, `fetchLog` records
the token each fetch was issued with, and `scratchResets` counts
`MemoryContextReset`s of the scratch memory holding the previous page. -/
structure ScrollState where
  scrollId : Nat
  total : Nat
  cnt : Nat
  currpos : Nat
  hits : Option (List Nat)
  nhits : Nat
  pages : List (Nat × Option (List Nat))
  nfetches : Nat
  fetchLog : List Nat
  scratchResets : Nat
  deriving Repr, DecidableEq

/-- `ElasticsearchOpenScroll` (elasticsearch.c lines 645-745), after the
initial `_search` call returned `resp`: the cursor starts with `cnt = 0`,
`currpos = 0`, and takes its first page from the response only when
`total > 0` (otherwise `hits` stays `NULL` from `palloc0`). -/
def ElasticsearchOpenScroll (resp : SearchResponse)
    (pages : List (Nat × Option (List Nat))) : ScrollState :=
  { scrollId := resp.scrollId,
    total := resp.total,
    cnt := 0,
    currpos := 0,
    hits := if resp.total > 0 then resp.hits else none,
    nhits := if resp.total > 0 then (resp.hits.getD []).length else 0,
    pages := pages,
    nfetches := 0,
    fetchLog := [],
    scratchResets := 0 }

/-- `ElasticsearchGetNextItemPointer` (elasticsearch.c lines 747-826):
fatal once `cnt >= total`; when the current page is exhausted
(`currpos == nhits`) issue a continuation fetch with the stored token,
reset the scratch memory of the previous page (when one exists), adopt the
response's token and hits and reset `currpos` to 0; then extract the hit at
`currpos` and advance `currpos` and `cnt`. -/
def ElasticsearchGetNextItemPointer (s : ScrollState) :
    Except String (Nat × ScrollState) :=
  if s.total ≤ s.cnt then
    Except.error "Attempt to read past total number of hits"
  else
    let fetched : Except String ScrollState :=
      if s.currpos = s.nhits then
        match s.pages with
        | [] => Except.error "scroll continuation without backend response"
        | (tok, newHits) :: rest =>
          Except.ok
            { s with
              scrollId := tok,
              currpos := 0,
              hits := newHits,
              nhits := (newHits.getD []).length,
              pages := rest,
              nfetches := s.nfetches + 1,
              fetchLog := s.fetchLog ++ [s.scrollId],
              scratchResets := s.scratchResets + (if s.hits.isSome then 1 else 0) }
      else Except.ok s
    match fetched with
    | Except.error e => Except.error e
    | Except.ok s =>
      match s.hits with
      | none => Except.error "No results found when loading next scroll context"
      | some hs =>
        match hs.get? s.currpos with
        | none => Except.error "hit entry out of range"
        | some x =>
          Except.ok (x, { s with currpos := s.currpos + 1, cnt := s.cnt + 1 })

/-- Run `n` consecutive `next` calls, collecting the yielded hits. -/
def runNext : Nat → ScrollState → Except String (List Nat × ScrollState)
  | 0, s => Except.ok ([], s)
  | n + 1, s =>
    match ElasticsearchGetNextItemPointer s with
    | Except.error e => Except.error e
    | Except.ok r =>
      match runNext n r.2 with
      | Except.error e => Except.error e
      | Except.ok rs => Except.ok (r.1 :: rs.1, rs.2)

/-- The hits of one backend continuation response (`null` counts as no
hits). -/
def pageHits (p : Nat × Option (List Nat)) : List Nat := p.2.getD []

/-- All hits the cursor has not yet yielded: the rest of the current page
followed by every future page. -/
def remainingHits (s : ScrollState) : List Nat :=
  (s.hits.getD []).drop s.currpos ++ s.pages.foldr (fun p acc => pageHits p ++ acc) []

/-- Well-formedness of a scroll state relative to the backend it will keep
talking to: the current page is present and indexed consistently, every
future response carries a non-empty page, and the fixed `total` equals the
hits already consumed plus those still to come. -/
def ScrollWF (s : ScrollState) : Prop :=
  (∃ h, s.hits = some h ∧ s.nhits = h.length ∧ s.currpos ≤ h.length) ∧
  (∀ p ∈ s.pages, ∃ l, p.2 = some l ∧ l ≠ []) ∧
  s.cnt + (remainingHits s).length = s.total

/- ------------------------------------------------------------------ -/
/- Concrete states used by counterexamples and witnesses               -/
/- ------------------------------------------------------------------ -/

/-- A bulk context whose current buffer (12 bytes) is over its byte
threshold (10 bytes), with one free pool buffer. -/
def bulkOverThreshold : BulkState :=
  { batchSize := 10, shouldRefresh := false, concurrency := 1,
    pool := [none, some 0], currentLen := 12, currentIdx := 0,
    nrows := 1, ntotal := 1, nrequests := 0,
    nindex := 1, nupdate := 0, ndelete := 0, nvacuum := 0, nxid := 0,
    waitForActiveShards := false, inFlight := [], requests := [] }

/-- A fresh bulk context far from its flush threshold. -/
def bulkFresh : BulkState :=
  { batchSize := 100, shouldRefresh := false, concurrency := 1,
    pool := [none, some 0], currentLen := 0, currentIdx := 0,
    nrows := 0, ntotal := 0, nrequests := 0,
    nindex := 0, nupdate := 0, ndelete := 0, nvacuum := 0, nxid := 0,
    waitForActiveShards := false, inFlight := [], requests := [] }

/-- `bulkFresh` after `ElasticsearchBulkDeleteRowByXmin (fun _ => false) 5`. -/
def bulkFreshAfterDelete : BulkState :=
  { batchSize := 100, shouldRefresh := false, concurrency := 1,
    pool := [none, some 0], currentLen := 5, currentIdx := 0,
    nrows := 1, ntotal := 1, nrequests := 0,
    nindex := 0, nupdate := 0, ndelete := 1, nvacuum := 0, nxid := 0,
    waitForActiveShards := true, inFlight := [], requests := [] }

/-- `bulkOverThreshold` after `applyBulkOp (BulkOp.insertRow 5)`: the flush
fired, handing buffer 0 to the transport and checking out slot 1. -/
def bulkOverThresholdAfterInsert : BulkState :=
  { batchSize := 10, shouldRefresh := false, concurrency := 1,
    pool := [none, none], currentLen := 5, currentIdx := 1,
    nrows := 1, ntotal := 2, nrequests := 1,
    nindex := 2, nupdate := 0, ndelete := 0, nvacuum := 0, nxid := 0,
    waitForActiveShards := false, inFlight := [0],
    requests := [{ waitForActiveShards := false, refresh := false }] }

/-- A drained bulk context that issued two requests with refresh disabled
on the index (`shouldRefresh`). -/
def bulkDrainedTwoRequests : BulkState :=
  { batchSize := 100, shouldRefresh := true, concurrency := 1,
    pool := [none, some 0], currentLen := 0, currentIdx := 0,
    nrows := 0, ntotal := 0, nrequests := 2,
    nindex := 0, nupdate := 0, ndelete := 0, nvacuum := 0, nxid := 0,
    waitForActiveShards := false, inFlight := [], requests := [] }

/-- The spec's end-to-end scenario: a scroll of 25 total hits delivered in
pages of 10, 10 and 5. -/
def scrollScenario25 : ScrollState :=
  ElasticsearchOpenScroll
    { scrollId := 0, total := 25, hits := some (List.range 10) }
    [(1, some ((List.range 10).map (fun x => x + 10))),
     (2, some ((List.range 5).map (fun x => x + 20)))]

/-- A cursor sitting at the end of its current one-hit page with one hit
left to consume from one pending backend page. -/
def scrollAtPageEnd : ScrollState :=
  { scrollId := 42, total := 2, cnt := 1, currpos := 1,
    hits := some [5], nhits := 1, pages := [(43, some [7])],
    nfetches := 0, fetchLog := [], scratchResets := 0 }

/-- A one-hit cursor that has consumed nothing yet. -/
def scrollOneHit : ScrollState :=
  { scrollId := 3, total := 1, cnt := 0, currpos := 0,
    hits := some [9], nhits := 1, pages := [],
    nfetches := 0, fetchLog := [], scratchResets := 0 }

/-- A registry entry for relation 1 whose single callback adds the ctid to
its data argument. -/
def scoringEntryOne : ZDBScoringSupportData :=
  { heapOid := 1, callbacks := [fun c a => (c : ℚ) + a], callback_data := [2] }

/- ------------------------------------------------------------------ -/
/- Helper lemmas                                                       -/
/- ------------------------------------------------------------------ -/

lemma foldl_add_map {α : Type} (g : α → ℚ) (l : List α) (a : ℚ) :
    l.foldl (fun sc x => sc + g x) a = a + (l.map g).sum := by
  induction l generalizing a with
  | nil => simp
  | cons x xs ih => simp [List.foldl_cons, ih]; ring

/-- The value `scoring_lookup_score` computes, for any starting
accumulator. -/
lemma scoring_fold_spec (oid ctid : Nat) (entries : List ZDBScoringSupportData)
    (a : ℚ) :
    entries.foldl
      (fun score entry =>
        if oid = entry.heapOid then
          (entry.callbacks.zip entry.callback_data).foldl
            (fun sc cb => sc + cb.1 ctid cb.2) score
        else score) a
    = a + ((entries.filter (fun e => decide (oid = e.heapOid))).map
            (fun e => ((e.callbacks.zip e.callback_data).map
                        (fun cb => cb.1 ctid cb.2)).sum)).sum := by
  induction entries generalizing a with
  | nil => simp
  | cons e es ih =>
    simp only [List.foldl_cons]
    by_cases he : oid = e.heapOid
    · rw [if_pos he, foldl_add_map, ih]
      simp only [List.filter_cons, he, decide_true_eq_true, if_pos, List.map_cons,
        List.sum_cons, decide_eq_true_eq, if_true]
      ring
    · rw [if_neg he, ih]
      simp [List.filter_cons, he]

/- ------------------------------------------------------------------ -/
/- C10: score lookup sums all matching callbacks                       -/
/- ------------------------------------------------------------------ -/

/-- C10: for every heap relation and row locator, the score lookup returns
the sum of the values produced by all callbacks registered for that
relation, accumulated across every registry entry whose `heapOid` matches,
and returns exactly 0 when no entry matches the relation. -/
theorem scoring_lookup_score_spec (entries : List ZDBScoringSupportData)
    (oid ctid : Nat) :
    scoring_lookup_score entries oid ctid
      = ((entries.filter (fun e => decide (oid = e.heapOid))).map
          (fun e => ((e.callbacks.zip e.callback_data).map
                      (fun cb => cb.1 ctid cb.2)).sum)).sum
    ∧ ((∀ e ∈ entries, oid ≠ e.heapOid) →
        scoring_lookup_score entries oid ctid = 0) := by
  have hmain := scoring_fold_spec oid ctid entries 0
  rw [zero_add] at hmain
  refine ⟨hmain, fun hnone => ?_⟩
  have h0 : entries.filter (fun e => decide (oid = e.heapOid)) = [] := by
    rw [List.filter_eq_nil_iff]
    intro e he
    simp only [decide_eq_true_eq]
    exact hnone e he
  exact hmain.trans (by rw [h0]; simp)

/-- Witness: no entry is registered for relation 5, so the score is 0. -/
theorem scoring_lookup_score_spec_witness :
    scoring_lookup_score [scoringEntryOne] 5 7 = 0 :=
  (scoring_lookup_score_spec [scoringEntryOne] 5 7).2
    (by
      intro e he
      rw [List.mem_singleton] at he
      subst he
      decide)

/- ------------------------------------------------------------------ -/
/- C9: batch removal of aborted transaction ids                        -/
/- ------------------------------------------------------------------ -/

/-- C9: for every non-empty xid list, `removeAborted` issues exactly one
update against the ledger document that removes all the given ids
(`removeAll` drops every listed id from the ledger) and unconditionally
forces a synchronous refresh; for an empty list it issues no request. -/
theorem remove_aborted_transactions_spec :
    (∀ xids : List Nat, xids ≠ [] →
       ElasticsearchRemoveAbortedTransactions xids
         = some { docId := "zdb_aborted_xids", xids := xids,
                  retryOnConflict := 128, refresh := true })
    ∧ (∀ (xids ledger : List Nat) (x : Nat), x ∈ xids →
         x ∉ ledgerRemoveAll ledger xids)
    ∧ ElasticsearchRemoveAbortedTransactions [] = none := by
  refine ⟨fun xids hne => ?_, fun xids ledger x hx => ?_, rfl⟩
  · rw [ElasticsearchRemoveAbortedTransactions, if_pos]
    exact List.length_pos.mpr hne
  · intro hmem
    rw [ledgerRemoveAll, List.mem_filter] at hmem
    have hnot := hmem.2
    simp only [decide_eq_true_eq] at hnot
    exact hnot hx

/-- Witness: removing xids 3 and 4 issues the single refresh-forcing
ledger update. -/
theorem remove_aborted_transactions_spec_witness :
    ElasticsearchRemoveAbortedTransactions [3, 4]
      = some { docId := "zdb_aborted_xids", xids := [3, 4],
               retryOnConflict := 128, refresh := true } :=
  (remove_aborted_transactions_spec).1 [3, 4] (by decide)

/- ------------------------------------------------------------------ -/
/- C5: scroll page size                                                -/
/- ------------------------------------------------------------------ -/

/-- C5 counterexample: with a caller limit of 20000 the requested page
size is 20000, not `min 20000 MAX_DOCS_PER_REQUEST = 10000` — the code
passes a nonzero limit straight through instead of capping it. -/
theorem scroll_page_size_not_min_cex :
    scrollRequestSize 20000 = 20000
    ∧ min 20000 MAX_DOCS_PER_REQUEST = 10000
    ∧ scrollRequestSize 20000 ≠ min 20000 MAX_DOCS_PER_REQUEST := by
  refine ⟨rfl, rfl, ?_⟩
  decide

/-- C5 amended: the page size requested from the backend equals the
caller's limit whenever the limit is nonzero — even when it exceeds the
backend page cap of 10000 — and equals the backend cap when the limit is
zero (no caller limit); consequently it equals the minimum of limit and
cap whenever the nonzero limit does not exceed the cap. -/
theorem scroll_page_size_spec (limit : Nat) :
    (limit = 0 → scrollRequestSize limit = MAX_DOCS_PER_REQUEST)
    ∧ (0 < limit → scrollRequestSize limit = limit)
    ∧ (0 < limit → limit ≤ MAX_DOCS_PER_REQUEST →
        scrollRequestSize limit = min limit MAX_DOCS_PER_REQUEST) := by
  refine ⟨fun h0 => ?_, fun hp => ?_, fun hp hle => ?_⟩
  · rw [scrollRequestSize, if_pos h0]
  · rw [scrollRequestSize, if_neg (Nat.pos_iff_ne_zero.mp hp)]
  · rw [scrollRequestSize, if_neg (Nat.pos_iff_ne_zero.mp hp), min_eq_left hle]

/-- Witness: a limit of 5000 is within the cap and used as the page
size. -/
theorem scroll_page_size_spec_witness :
    scrollRequestSize 5000 = min 5000 MAX_DOCS_PER_REQUEST :=
  (scroll_page_size_spec 5000).2.2 (by decide) (by decide)

/- ------------------------------------------------------------------ -/
/- C6: scroll sort policy                                              -/
/- ------------------------------------------------------------------ -/

/-- C6: an explicitly supplied sort field is used as given (with the
caller's direction untouched); otherwise, when sorting is needed and
ranking is wanted (score requested or limit > 0) the default sort is
`_score` descending, and when sorting is needed without ranking the
default sort is the stable locator field `zdb_ctid` ascending. -/
theorem scroll_sort_policy_spec :
    (∀ (ns nsc : Bool) (lim : Nat) (f : String) (d : SortByDir),
       (resolve_scroll_sort ns nsc lim (some f) d).sortField = some f
       ∧ (resolve_scroll_sort ns nsc lim (some f) d).direction = d)
    ∧ (∀ (nsc : Bool) (lim : Nat), (nsc = true ∨ 0 < lim) →
        resolve_scroll_sort true nsc lim none SortByDir.SORTBY_DEFAULT
          = { needSort := true, needScore := true, sortField := some "_score",
              direction := SortByDir.SORTBY_DESC })
    ∧ resolve_scroll_sort true false 0 none SortByDir.SORTBY_DEFAULT
        = { needSort := true, needScore := false, sortField := some "zdb_ctid",
            direction := SortByDir.SORTBY_ASC } := by
  refine ⟨fun ns nsc lim f d => ⟨rfl, rfl⟩, fun nsc lim h => ?_, rfl⟩
  rcases h with h | h
  · subst h
    simp [resolve_scroll_sort]
  · have : decide (lim > 0) = true := by simpa using h
    simp [resolve_scroll_sort, this]

/-- Witness: no explicit sort field, no score request, but a limit of 10:
ranking is wanted, so the default sort is score descending. -/
theorem scroll_sort_policy_spec_witness :
    resolve_scroll_sort true false 10 none SortByDir.SORTBY_DEFAULT
      = { needSort := true, needScore := true, sortField := some "_score",
          direction := SortByDir.SORTBY_DESC } :=
  (scroll_sort_policy_spec).2.1 false 10 (Or.inr (by decide))

/- ------------------------------------------------------------------ -/
/- Helper lemmas about the buffer pool                                 -/
/- ------------------------------------------------------------------ -/

lemma checkout_scan_all_none :
    ∀ pool : List (Option Nat), (∀ x ∈ pool, x = none) →
    checkout_scan pool = none := by
  intro pool
  induction pool with
  | nil => intro _; rfl
  | cons hd tl ih =>
    intro h
    have hhd := h hd (List.mem_cons_self hd tl)
    subst hhd
    rw [checkout_scan, ih (fun x hx => h x (List.mem_cons_of_mem _ hx))]
    rfl

lemma checkout_scan_length :
    ∀ (pool p' : List (Option Nat)) (b i : Nat),
    checkout_scan pool = some (b, i, p') → p'.length = pool.length := by
  intro pool
  induction pool with
  | nil => intro p' b i h; exact absurd h (by rw [checkout_scan]; simp)
  | cons hd tl ih =>
    intro p' b i h
    cases hd with
    | some v =>
      rw [checkout_scan] at h
      simp only [Option.some.injEq, Prod.mk.injEq] at h
      obtain ⟨hb, hi, hp⟩ := h
      subst hp
      simp
    | none =>
      rw [checkout_scan] at h
      cases hsc : checkout_scan tl with
      | none => rw [hsc] at h; exact absurd h (by rw [Option.map_none']; simp)
      | some r =>
        rw [hsc] at h
        rw [Option.map_some'] at h
        simp only [Option.some.injEq, Prod.mk.injEq] at h
        obtain ⟨hb, hi, hp⟩ := h
        subst hp
        have := ih r.2.2 r.1 r.2.1 (by rw [hsc])
        simp [this]

lemma checkout_scan_fresh :
    ∀ (pool p' : List (Option Nat)) (b i : Nat),
    (∀ x ∈ pool, x = none ∨ x = some 0) →
    checkout_scan pool = some (b, i, p') →
    b = 0 ∧ (∀ x ∈ p', x = none ∨ x = some 0) := by
  intro pool
  induction pool with
  | nil => intro p' b i _ h; exact absurd h (by rw [checkout_scan]; simp)
  | cons hd tl ih =>
    intro p' b i hp h
    cases hd with
    | some v =>
      rw [checkout_scan] at h
      simp only [Option.some.injEq, Prod.mk.injEq] at h
      obtain ⟨hb, hi, hp'⟩ := h
      subst hp'
      have hv : some v = none ∨ some v = some 0 := hp _ (List.mem_cons_self _ _)
      have hv0 : v = 0 := by
        rcases hv with hv | hv
        · exact absurd hv (by simp)
        · injection hv
      refine ⟨by rw [← hb, hv0], fun x hx => ?_⟩
      rcases List.mem_cons.mp hx with hx | hx
      · exact Or.inl hx
      · exact hp x (List.mem_cons_of_mem _ hx)
    | none =>
      rw [checkout_scan] at h
      cases hsc : checkout_scan tl with
      | none => rw [hsc] at h; exact absurd h (by rw [Option.map_none']; simp)
      | some r =>
        rw [hsc] at h
        rw [Option.map_some'] at h
        simp only [Option.some.injEq, Prod.mk.injEq] at h
        obtain ⟨hb, hi, hp'⟩ := h
        subst hp'
        have hr := ih r.2.2 r.1 r.2.1
          (fun x hx => hp x (List.mem_cons_of_mem _ hx))
          (by rw [hsc])
        refine ⟨by rw [← hb, hr.1], fun x hx => ?_⟩
        rcases List.mem_cons.mp hx with hx | hx
        · exact Or.inl hx
        · exact hr.2 x hx

lemma pool_reset_length (l : List Nat) :
    ∀ p : List (Option Nat),
    (l.foldl (fun p i => p.set i (some 0)) p).length = p.length := by
  induction l with
  | nil => intro p; rfl
  | cons hd tl ih => intro p; rw [List.foldl_cons, ih]; simp

lemma pool_reset_fresh (l : List Nat) :
    ∀ p : List (Option Nat), (∀ x ∈ p, x = none ∨ x = some 0) →
    ∀ x ∈ l.foldl (fun p i => p.set i (some 0)) p, x = none ∨ x = some 0 := by
  induction l with
  | nil => intro p hp; exact hp
  | cons hd tl ih =>
    intro p hp
    refine ih _ (fun x hx => ?_)
    rcases List.mem_or_eq_of_mem_set hx with hx | hx
    · exact hp x hx
    · exact Or.inr hx

/- ------------------------------------------------------------------ -/
/- Helper lemmas about bulk_prologue                                   -/
/- ------------------------------------------------------------------ -/

lemma flushDue_reclaim (done : Nat → Bool) (s : BulkState) :
    flushDue (rest_multi_reclaim done s) = flushDue s := rfl


lemma bulk_prologue_noflush (done : Nat → Bool) (s s' : BulkState)
    (h : bulk_prologue done s false = Except.ok s') (hf : flushDue s = false) :
    s' = rest_multi_reclaim done s := by
  unfold bulk_prologue at h
  simp only [flushDue_reclaim, hf, Bool.or_false] at h
  simp at h
  exact h.symm

lemma bulk_prologue_doflush (done : Nat → Bool) (s s' : BulkState)
    (h : bulk_prologue done s false = Except.ok s') (hf : flushDue s = true) :
    ∃ b idx pool',
        checkout_scan (rest_multi_reclaim done s).pool = some (b, idx, pool')
        ∧ s' = { rest_multi_reclaim done s with
                 requests := s.requests ++
                   [{ waitForActiveShards := s.waitForActiveShards, refresh := false }],
                 inFlight := s.inFlight.filter (fun i => !done i) ++ [s.currentIdx],
                 nrows := 0,
                 nrequests := s.nrequests + 1,
                 pool := pool',
                 currentLen := b,
                 currentIdx := idx } := by
  unfold bulk_prologue at h
  simp only [flushDue_reclaim, hf, Bool.true_or, if_true] at h
  rw [checkout_batch_pool] at h
  cases hsc : checkout_scan (rest_multi_reclaim done s).pool with
  | none => rw [hsc] at h; exact absurd h (by simp)
  | some r =>
    obtain ⟨b, idx, pool'⟩ := r
    rw [hsc] at h
    exact ⟨b, idx, pool', rfl, (Except.ok.inj h).symm⟩

lemma bulk_prologue_true_eq (done : Nat → Bool) (s : BulkState) :
    bulk_prologue done s true = Except.ok
      { rest_multi_reclaim done s with
        requests := s.requests ++
          [{ waitForActiveShards := s.waitForActiveShards,
             refresh := s.shouldRefresh && s.nrequests == 0 }],
        inFlight := s.inFlight.filter (fun i => !done i) ++ [s.currentIdx],
        nrows := 0,
        nrequests := s.nrequests + 1 } := by
  unfold bulk_prologue
  cases hf : flushDue (rest_multi_reclaim done s) <;>
    simp [hf, rest_multi_reclaim, Bool.true_and]

lemma bulk_prologue_pool_length (done : Nat → Bool) (s s' : BulkState)
    (is_final : Bool) (h : bulk_prologue done s is_final = Except.ok s') :
    s'.pool.length = s.pool.length := by
  cases is_final with
  | true =>
    rw [bulk_prologue_true_eq] at h
    rw [← Except.ok.inj h]
    simp [rest_multi_reclaim, pool_reset_length]
  | false =>
    cases hf : flushDue s with
    | false =>
      rw [bulk_prologue_noflush done s s' h hf]
      simp [rest_multi_reclaim, pool_reset_length]
    | true =>
      obtain ⟨b, idx, pool', hsc, hs⟩ := bulk_prologue_doflush done s s' h hf
      subst hs
      have h1 := checkout_scan_length _ _ _ _ hsc
      show pool'.length = s.pool.length
      rw [h1]
      simp [rest_multi_reclaim, pool_reset_length]

lemma bulk_prologue_wait (done : Nat → Bool) (s s' : BulkState) (is_final : Bool)
    (h : bulk_prologue done s is_final = Except.ok s') :
    s'.waitForActiveShards = s.waitForActiveShards
    ∧ ∃ t, s'.requests = s.requests ++ t
        ∧ ∀ r ∈ t, r.waitForActiveShards = s.waitForActiveShards := by
  cases is_final with
  | true =>
    rw [bulk_prologue_true_eq] at h
    have hs := Except.ok.inj h
    rw [← hs]
    refine ⟨rfl, [{ waitForActiveShards := s.waitForActiveShards,
                    refresh := s.shouldRefresh && s.nrequests == 0 }], rfl, ?_⟩
    intro r hr
    rw [List.mem_singleton] at hr
    rw [hr]
  | false =>
    cases hf : flushDue s with
    | false =>
      rw [bulk_prologue_noflush done s s' h hf]
      exact ⟨rfl, [], by simp [rest_multi_reclaim], by simp⟩
    | true =>
      obtain ⟨b, idx, pool', hsc, hs⟩ := bulk_prologue_doflush done s s' h hf
      subst hs
      refine ⟨rfl, [{ waitForActiveShards := s.waitForActiveShards, refresh := false }],
        rfl, ?_⟩
      intro r hr
      rw [List.mem_singleton] at hr
      rw [hr]

lemma bulk_step_core (done : Nat → Bool) (s s0 s' : BulkState) (L : Nat)
    (hpool : ∀ x ∈ s.pool, x = none ∨ x = some 0)
    (hb : bulk_prologue done s false = Except.ok s0)
    (hif : s'.inFlight = s0.inFlight) (hnr : s'.nrequests = s0.nrequests)
    (hcl : s'.currentLen = s0.currentLen + L) (hrq : s'.requests = s0.requests)
    (hrow : s'.nrows = s0.nrows + 1) :
    s'.inFlight = s.inFlight.filter (fun i => !done i)
        ++ (if flushDue s = true then [s.currentIdx] else [])
    ∧ (flushDue s = true ↔ s'.nrequests = s.nrequests + 1)
    ∧ (flushDue s = true → s'.currentLen = L
         ∧ s'.requests.length = s.requests.length + 1 ∧ s'.nrows = 1)
    ∧ (flushDue s = false → s'.nrequests = s.nrequests
         ∧ s'.currentLen = s.currentLen + L ∧ s'.requests = s.requests
         ∧ s'.nrows = s.nrows + 1) := by
  cases hf : flushDue s with
  | false =>
    have hs0 := bulk_prologue_noflush done s s0 hb hf
    subst hs0
    refine ⟨?_, ?_, ?_, ?_⟩
    · rw [hif]; simp [rest_multi_reclaim]
    · rw [hnr]; simp [rest_multi_reclaim]
    · intro hh; exact absurd hh (by decide)
    · intro _
      exact ⟨by rw [hnr]; simp [rest_multi_reclaim],
             by rw [hcl]; simp [rest_multi_reclaim],
             by rw [hrq]; simp [rest_multi_reclaim],
             by rw [hrow]; simp [rest_multi_reclaim]⟩
  | true =>
    obtain ⟨b, idx, pool', hsc, hs0⟩ := bulk_prologue_doflush done s s0 hb hf
    have hpool1 : ∀ x ∈ (rest_multi_reclaim done s).pool, x = none ∨ x = some 0 := by
      simp only [rest_multi_reclaim]
      exact pool_reset_fresh _ _ hpool
    have hfresh := checkout_scan_fresh _ _ _ _ hpool1 hsc
    subst hs0
    refine ⟨?_, ?_, ?_, ?_⟩
    · rw [hif]; simp
    · rw [hnr]; simp
    · intro _
      refine ⟨?_, ?_, ?_⟩
      · rw [hcl]
        show b + L = L
        rw [hfresh.1, Nat.zero_add]
      · rw [hrq]; simp
      · rw [hrow]
    · intro hh; exact absurd hh (by decide)

lemma applyBulkOp_pool_length (op : BulkOp) (done : Nat → Bool) (s s' : BulkState)
    (h : applyBulkOp op done s = Except.ok s') :
    s'.pool.length = s.pool.length := by
  cases op with
  | markCommitted L =>
    simp only [applyBulkOp] at h
    rw [← Except.ok.inj h]
    rfl
  | insertRow L =>
    simp only [applyBulkOp, ElasticsearchBulkInsertRow] at h
    cases hbp : bulk_prologue done s false with
    | error e => rw [hbp] at h; exact Except.noConfusion h
    | ok s0 =>
      rw [hbp] at h
      rw [← Except.ok.inj h]
      exact bulk_prologue_pool_length done s s0 false hbp
  | updateTuple L =>
    simp only [applyBulkOp, ElasticsearchBulkUpdateTuple] at h
    cases hbp : bulk_prologue done s false with
    | error e => rw [hbp] at h; exact Except.noConfusion h
    | ok s0 =>
      rw [hbp] at h
      rw [← Except.ok.inj h]
      exact bulk_prologue_pool_length done s s0 false hbp
  | vacuumXmax L =>
    simp only [applyBulkOp, ElasticsearchBulkVacuumXmax] at h
    cases hbp : bulk_prologue done s false with
    | error e => rw [hbp] at h; exact Except.noConfusion h
    | ok s0 =>
      rw [hbp] at h
      rw [← Except.ok.inj h]
      exact bulk_prologue_pool_length done s s0 false hbp
  | markInProgress L =>
    simp only [applyBulkOp, ElasticsearchBulkMarkTransactionInProgress] at h
    cases hbp : bulk_prologue done s false with
    | error e => rw [hbp] at h; exact Except.noConfusion h
    | ok s0 =>
      rw [hbp] at h
      rw [← Except.ok.inj h]
      exact bulk_prologue_pool_length done s s0 false hbp
  | deleteRowByXmin L =>
    simp only [applyBulkOp, ElasticsearchBulkDeleteRowByXmin] at h
    cases hbp : bulk_prologue done { s with waitForActiveShards := true } false with
    | error e => rw [hbp] at h; exact Except.noConfusion h
    | ok s0 =>
      rw [hbp] at h
      rw [← Except.ok.inj h]
      exact bulk_prologue_pool_length done { s with waitForActiveShards := true } s0 false hbp
  | deleteRowByXmax L =>
    simp only [applyBulkOp, ElasticsearchBulkDeleteRowByXmax] at h
    cases hbp : bulk_prologue done { s with waitForActiveShards := true } false with
    | error e => rw [hbp] at h; exact Except.noConfusion h
    | ok s0 =>
      rw [hbp] at h
      rw [← Except.ok.inj h]
      exact bulk_prologue_pool_length done { s with waitForActiveShards := true } s0 false hbp

lemma applyBulkOp_wait_mono (op : BulkOp) (done : Nat → Bool) (s s' : BulkState)
    (hw : s.waitForActiveShards = true)
    (h : applyBulkOp op done s = Except.ok s') :
    s'.waitForActiveShards = true
    ∧ ∃ t, s'.requests = s.requests ++ t
        ∧ ∀ r ∈ t, r.waitForActiveShards = true := by
  cases op with
  | markCommitted L =>
    simp only [applyBulkOp] at h
    rw [← Except.ok.inj h]
    exact ⟨hw, [], by simp [ElasticsearchBulkMarkTransactionCommitted], by simp⟩
  | insertRow L =>
    simp only [applyBulkOp, ElasticsearchBulkInsertRow] at h
    cases hbp : bulk_prologue done s false with
    | error e => rw [hbp] at h; exact Except.noConfusion h
    | ok s0 =>
      rw [hbp] at h
      obtain ⟨hwf, t, hrq, hts⟩ := bulk_prologue_wait done s s0 false hbp
      have hs' := Except.ok.inj h
      refine ⟨?_, t, ?_, fun r hr => ?_⟩
      · rw [← hs']; show s0.waitForActiveShards = true; rw [hwf, hw]
      · rw [← hs']; exact hrq
      · rw [hts r hr]; exact hw
  | updateTuple L =>
    simp only [applyBulkOp, ElasticsearchBulkUpdateTuple] at h
    cases hbp : bulk_prologue done s false with
    | error e => rw [hbp] at h; exact Except.noConfusion h
    | ok s0 =>
      rw [hbp] at h
      obtain ⟨hwf, t, hrq, hts⟩ := bulk_prologue_wait done s s0 false hbp
      have hs' := Except.ok.inj h
      refine ⟨?_, t, ?_, fun r hr => ?_⟩
      · rw [← hs']; show s0.waitForActiveShards = true; rw [hwf, hw]
      · rw [← hs']; exact hrq
      · rw [hts r hr]; exact hw
  | vacuumXmax L =>
    simp only [applyBulkOp, ElasticsearchBulkVacuumXmax] at h
    cases hbp : bulk_prologue done s false with
    | error e => rw [hbp] at h; exact Except.noConfusion h
    | ok s0 =>
      rw [hbp] at h
      obtain ⟨hwf, t, hrq, hts⟩ := bulk_prologue_wait done s s0 false hbp
      have hs' := Except.ok.inj h
      refine ⟨?_, t, ?_, fun r hr => ?_⟩
      · rw [← hs']; show s0.waitForActiveShards = true; rw [hwf, hw]
      · rw [← hs']; exact hrq
      · rw [hts r hr]; exact hw
  | markInProgress L =>
    simp only [applyBulkOp, ElasticsearchBulkMarkTransactionInProgress] at h
    cases hbp : bulk_prologue done s false with
    | error e => rw [hbp] at h; exact Except.noConfusion h
    | ok s0 =>
      rw [hbp] at h
      obtain ⟨hwf, t, hrq, hts⟩ := bulk_prologue_wait done s s0 false hbp
      have hs' := Except.ok.inj h
      refine ⟨?_, t, ?_, fun r hr => ?_⟩
      · rw [← hs']; show s0.waitForActiveShards = true; rw [hwf, hw]
      · rw [← hs']; exact hrq
      · rw [hts r hr]; exact hw
  | deleteRowByXmin L =>
    simp only [applyBulkOp, ElasticsearchBulkDeleteRowByXmin] at h
    cases hbp : bulk_prologue done { s with waitForActiveShards := true } false with
    | error e => rw [hbp] at h; exact Except.noConfusion h
    | ok s0 =>
      rw [hbp] at h
      obtain ⟨hwf, t, hrq, hts⟩ :=
        bulk_prologue_wait done { s with waitForActiveShards := true } s0 false hbp
      have hs' := Except.ok.inj h
      refine ⟨?_, t, ?_, fun r hr => ?_⟩
      · rw [← hs']; show s0.waitForActiveShards = true; rw [hwf]
      · rw [← hs']; exact hrq
      · exact hts r hr
  | deleteRowByXmax L =>
    simp only [applyBulkOp, ElasticsearchBulkDeleteRowByXmax] at h
    cases hbp : bulk_prologue done { s with waitForActiveShards := true } false with
    | error e => rw [hbp] at h; exact Except.noConfusion h
    | ok s0 =>
      rw [hbp] at h
      obtain ⟨hwf, t, hrq, hts⟩ :=
        bulk_prologue_wait done { s with waitForActiveShards := true } s0 false hbp
      have hs' := Except.ok.inj h
      refine ⟨?_, t, ?_, fun r hr => ?_⟩
      · rw [← hs']; show s0.waitForActiveShards = true; rw [hwf]
      · rw [← hs']; exact hrq
      · exact hts r hr

lemma runBulkOps_wait_mono (ops : List (BulkOp × (Nat → Bool))) :
    ∀ s s' : BulkState, s.waitForActiveShards = true →
    runBulkOps ops s = Except.ok s' →
    s'.waitForActiveShards = true
    ∧ ∃ t, s'.requests = s.requests ++ t
        ∧ ∀ r ∈ t, r.waitForActiveShards = true := by
  induction ops with
  | nil =>
    intro s s' hw h
    rw [runBulkOps] at h
    rw [← Except.ok.inj h]
    exact ⟨hw, [], by simp, by simp⟩
  | cons hd tl ih =>
    intro s s' hw h
    obtain ⟨op, dn⟩ := hd
    rw [runBulkOps] at h
    cases hstep : applyBulkOp op dn s with
    | error e => rw [hstep] at h; exact Except.noConfusion h
    | ok s1 =>
      rw [hstep] at h
      obtain ⟨hw1, t1, hr1, ht1⟩ := applyBulkOp_wait_mono op dn s s1 hw hstep
      obtain ⟨hw2, t2, hr2, ht2⟩ := ih s1 s' hw1 h
      refine ⟨hw2, t1 ++ t2, ?_, fun r hr => ?_⟩
      · rw [hr2, hr1, List.append_assoc]
      · rcases List.mem_append.mp hr with hr | hr
        · exact ht1 r hr
        · exact ht2 r hr

lemma finish_wait_mono (done : Nat → Bool) (s s' : BulkState) (b : Bool)
    (hw : s.waitForActiveShards = true)
    (h : ElasticsearchFinishBulkProcess done s = Except.ok (s', b)) :
    s'.waitForActiveShards = true
    ∧ ∃ t, s'.requests = s.requests ++ t
        ∧ ∀ r ∈ t, r.waitForActiveShards = true := by
  unfold ElasticsearchFinishBulkProcess at h
  by_cases hl : s.currentLen > 0
  · rw [if_pos hl] at h
    cases hbp : bulk_prologue done s true with
    | error e => rw [hbp] at h; exact Except.noConfusion h
    | ok s1 =>
      rw [hbp] at h
      obtain ⟨hwf, t, hrq, hts⟩ := bulk_prologue_wait done s s1 true hbp
      have hpair := Except.ok.inj h
      have hs' : { s1 with inFlight := ([] : List Nat) } = s' := congrArg Prod.fst hpair
      refine ⟨?_, t, ?_, fun r hr => ?_⟩
      · rw [← hs']; show s1.waitForActiveShards = true; rw [hwf, hw]
      · rw [← hs']; exact hrq
      · rw [hts r hr]; exact hw
  · rw [if_neg hl] at h
    have hpair := Except.ok.inj h
    have hs' : { s with inFlight := ([] : List Nat) } = s' := congrArg Prod.fst hpair
    refine ⟨?_, [], ?_, by simp⟩
    · rw [← hs']; exact hw
    · rw [← hs']; simp

/- ------------------------------------------------------------------ -/
/- C1: flush discipline of mutation appends                            -/
/- ------------------------------------------------------------------ -/

/-- C1 counterexample: `ElasticsearchBulkMarkTransactionCommitted` is a
mutation append whose state satisfies the flush predicate (buffer length
12 ≥ threshold 10), yet the operation neither polls nor flushes: the
request count, request log and in-flight set are all untouched, and the
record is appended to the already-over-threshold buffer. -/
theorem mark_committed_skips_prologue_cex :
    flushDue bulkOverThreshold = true
    ∧ (ElasticsearchBulkMarkTransactionCommitted 40 bulkOverThreshold).nrequests
        = bulkOverThreshold.nrequests
    ∧ (ElasticsearchBulkMarkTransactionCommitted 40 bulkOverThreshold).requests
        = bulkOverThreshold.requests
    ∧ (ElasticsearchBulkMarkTransactionCommitted 40 bulkOverThreshold).inFlight
        = bulkOverThreshold.inFlight
    ∧ (ElasticsearchBulkMarkTransactionCommitted 40 bulkOverThreshold).currentLen
        = bulkOverThreshold.currentLen + 40 :=
  ⟨rfl, rfl, rfl, rfl, rfl⟩

/-- C1 (amended): every mutation append except mark-transaction-committed
(index, conditional-update, vacuum-xmax, conditional-delete by xmin or
xmax, mark-transaction-in-progress) first polls and reclaims completed
in-flight requests and then flushes the current buffer exactly when its
byte length is at least the byte threshold or its row count has reached
the hard cap of 10000, checking out a fresh buffer when it flushes;
mark-transaction-committed instead appends directly to the current buffer
with no poll and no flush. -/
theorem bulk_append_flush_spec :
    (∀ (op : BulkOp) (done : Nat → Bool) (s s' : BulkState),
       (∀ L, op ≠ BulkOp.markCommitted L) →
       (∀ x ∈ s.pool, x = none ∨ x = some 0) →
       applyBulkOp op done s = Except.ok s' →
       s'.inFlight = s.inFlight.filter (fun i => !done i)
           ++ (if flushDue s = true then [s.currentIdx] else [])
       ∧ (flushDue s = true ↔ s'.nrequests = s.nrequests + 1)
       ∧ (flushDue s = true → s'.currentLen = op.recLen
            ∧ s'.requests.length = s.requests.length + 1 ∧ s'.nrows = 1)
       ∧ (flushDue s = false → s'.nrequests = s.nrequests
            ∧ s'.currentLen = s.currentLen + op.recLen
            ∧ s'.requests = s.requests ∧ s'.nrows = s.nrows + 1))
    ∧ (∀ (L : Nat) (s : BulkState),
        ElasticsearchBulkMarkTransactionCommitted L s
          = { s with currentLen := s.currentLen + L, nxid := s.nxid + 1 }) := by
  constructor
  · intro op done s s' hop hpool h
    cases op with
    | markCommitted L => exact absurd rfl (hop L)
    | insertRow L =>
      simp only [applyBulkOp, ElasticsearchBulkInsertRow] at h
      cases hbp : bulk_prologue done s false with
      | error e => rw [hbp] at h; exact Except.noConfusion h
      | ok s0 =>
        rw [hbp] at h
        have hs' := Except.ok.inj h
        exact bulk_step_core done s s0 s' L hpool hbp
          (by rw [← hs']; rfl) (by rw [← hs']; rfl) (by rw [← hs']; rfl)
          (by rw [← hs']; rfl) (by rw [← hs']; rfl)
    | updateTuple L =>
      simp only [applyBulkOp, ElasticsearchBulkUpdateTuple] at h
      cases hbp : bulk_prologue done s false with
      | error e => rw [hbp] at h; exact Except.noConfusion h
      | ok s0 =>
        rw [hbp] at h
        have hs' := Except.ok.inj h
        exact bulk_step_core done s s0 s' L hpool hbp
          (by rw [← hs']; rfl) (by rw [← hs']; rfl) (by rw [← hs']; rfl)
          (by rw [← hs']; rfl) (by rw [← hs']; rfl)
    | vacuumXmax L =>
      simp only [applyBulkOp, ElasticsearchBulkVacuumXmax] at h
      cases hbp : bulk_prologue done s false with
      | error e => rw [hbp] at h; exact Except.noConfusion h
      | ok s0 =>
        rw [hbp] at h
        have hs' := Except.ok.inj h
        exact bulk_step_core done s s0 s' L hpool hbp
          (by rw [← hs']; rfl) (by rw [← hs']; rfl) (by rw [← hs']; rfl)
          (by rw [← hs']; rfl) (by rw [← hs']; rfl)
    | markInProgress L =>
      simp only [applyBulkOp, ElasticsearchBulkMarkTransactionInProgress] at h
      cases hbp : bulk_prologue done s false with
      | error e => rw [hbp] at h; exact Except.noConfusion h
      | ok s0 =>
        rw [hbp] at h
        have hs' := Except.ok.inj h
        exact bulk_step_core done s s0 s' L hpool hbp
          (by rw [← hs']; rfl) (by rw [← hs']; rfl) (by rw [← hs']; rfl)
          (by rw [← hs']; rfl) (by rw [← hs']; rfl)
    | deleteRowByXmin L =>
      simp only [applyBulkOp, ElasticsearchBulkDeleteRowByXmin] at h
      cases hbp : bulk_prologue done { s with waitForActiveShards := true } false with
      | error e => rw [hbp] at h; exact Except.noConfusion h
      | ok s0 =>
        rw [hbp] at h
        have hs' := Except.ok.inj h
        exact bulk_step_core done { s with waitForActiveShards := true } s0 s' L hpool hbp
          (by rw [← hs']; rfl) (by rw [← hs']; rfl) (by rw [← hs']; rfl)
          (by rw [← hs']; rfl) (by rw [← hs']; rfl)
    | deleteRowByXmax L =>
      simp only [applyBulkOp, ElasticsearchBulkDeleteRowByXmax] at h
      cases hbp : bulk_prologue done { s with waitForActiveShards := true } false with
      | error e => rw [hbp] at h; exact Except.noConfusion h
      | ok s0 =>
        rw [hbp] at h
        have hs' := Except.ok.inj h
        exact bulk_step_core done { s with waitForActiveShards := true } s0 s' L hpool hbp
          (by rw [← hs']; rfl) (by rw [← hs']; rfl) (by rw [← hs']; rfl)
          (by rw [← hs']; rfl) (by rw [← hs']; rfl)
  · intro L s
    rfl

/-- Witness: an over-threshold buffer flushes on the next insert append:
the fresh buffer holds exactly the new 5-byte record, one request was
issued and the row count restarted at 1. -/
theorem bulk_append_flush_spec_witness :
    bulkOverThresholdAfterInsert.currentLen = (BulkOp.insertRow 5).recLen
    ∧ bulkOverThresholdAfterInsert.requests.length
        = bulkOverThreshold.requests.length + 1
    ∧ bulkOverThresholdAfterInsert.nrows = 1 :=
  (bulk_append_flush_spec.1 (BulkOp.insertRow 5) (fun _ => false)
      bulkOverThreshold bulkOverThresholdAfterInsert
      (fun L hc => BulkOp.noConfusion hc)
      (by decide) rfl).2.2.1 rfl

/- ------------------------------------------------------------------ -/
/- C3: refresh policy                                                  -/
/- ------------------------------------------------------------------ -/

/-- C3: when the index refresh interval is disabled (`shouldRefresh`), a
flushed bulk request carries the inline refresh directive exactly when it
is the terminal (drain) flush of a session that has issued no prior
request; a call that does not flush issues no request; and at drain the
explicit full-index refresh is issued if and only if the refresh interval
is disabled and more than one bulk request was issued in the session. -/
theorem bulk_refresh_policy_spec :
    (∀ (done : Nat → Bool) (s s' : BulkState) (is_final : Bool),
       bulk_prologue done s is_final = Except.ok s' →
       s.shouldRefresh = true →
       (flushDue s || is_final) = true →
       s'.requests = s.requests ++
         [{ waitForActiveShards := s.waitForActiveShards,
            refresh := is_final && s.nrequests == 0 }])
    ∧ (∀ (done : Nat → Bool) (s s' : BulkState) (is_final : Bool),
        bulk_prologue done s is_final = Except.ok s' →
        (flushDue s || is_final) = false →
        s'.requests = s.requests)
    ∧ (∀ (done : Nat → Bool) (s s' : BulkState) (b : Bool),
        ElasticsearchFinishBulkProcess done s = Except.ok (s', b) →
        (b = true ↔ (s'.shouldRefresh = true ∧ 1 < s'.nrequests))) := by
  refine ⟨?_, ?_, ?_⟩
  · intro done s s' is_final h hsr hc
    cases is_final with
    | true =>
      rw [bulk_prologue_true_eq] at h
      rw [← Except.ok.inj h]
      show s.requests ++ _ = s.requests ++ _
      rw [hsr]
    | false =>
      rw [Bool.or_false] at hc
      obtain ⟨b, idx, pool', hsc, hs⟩ := bulk_prologue_doflush done s s' h hc
      rw [hs]
      show s.requests ++ _ = s.requests ++ _
      simp [Bool.false_and]
  · intro done s s' is_final h hc
    rw [Bool.or_eq_false_iff] at hc
    rw [hc.2] at h
    rw [bulk_prologue_noflush done s s' h hc.1]
    rfl
  · intro done s s' b h
    unfold ElasticsearchFinishBulkProcess at h
    by_cases hl : s.currentLen > 0
    · rw [if_pos hl] at h
      cases hbp : bulk_prologue done s true with
      | error e => rw [hbp] at h; exact Except.noConfusion h
      | ok s1 =>
        rw [hbp] at h
        have hpair := Except.ok.inj h
        obtain ⟨hs', hb⟩ := Prod.mk.inj hpair
        subst hb
        rw [← hs']
        simp
    · rw [if_neg hl] at h
      have hpair := Except.ok.inj h
      obtain ⟨hs', hb⟩ := Prod.mk.inj hpair
      subst hb
      rw [← hs']
      simp

/-- Witness: finishing a session of two requests with the refresh interval
disabled issues the explicit full-index refresh. -/
theorem bulk_refresh_policy_spec_witness :
    (true = true ↔ (bulkDrainedTwoRequests.shouldRefresh = true
                    ∧ 1 < bulkDrainedTwoRequests.nrequests)) :=
  bulk_refresh_policy_spec.2.2 (fun _ => true) bulkDrainedTwoRequests
    bulkDrainedTwoRequests true rfl

/- ------------------------------------------------------------------ -/
/- C4: wait-for-active-shards discipline                               -/
/- ------------------------------------------------------------------ -/

/-- C4 counterexample: vacuum-xmax is a delete-family mutation per the
claim, yet appending it neither sets the wait-for-all-active-shards flag
nor tags the bulk request its own append flushes: starting from a session
that never saw a delete, the flush it triggers goes out without the
directive. -/
theorem vacuum_xmax_no_wait_flag_cex :
    bulkOverThreshold.waitForActiveShards = false
    ∧ flushDue bulkOverThreshold = true
    ∧ ElasticsearchBulkVacuumXmax (fun _ => false) 5 bulkOverThreshold
        = Except.ok
          { batchSize := 10, shouldRefresh := false, concurrency := 1,
            pool := [none, none], currentLen := 5, currentIdx := 1,
            nrows := 1, ntotal := 2, nrequests := 1,
            nindex := 1, nupdate := 0, ndelete := 0, nvacuum := 1, nxid := 0,
            waitForActiveShards := false, inFlight := [0],
            requests := [{ waitForActiveShards := false, refresh := false }] } :=
  ⟨rfl, rfl, rfl⟩

/-- C4 (amended): appending a conditional-delete by creating-xid or by
deleting-xid sets the session's wait-for-all-active-shards flag before the
flush check, so the flush that very append may trigger already carries the
directive; once the flag is set no operation of the session (any further
append, or the final drain) clears it, and every bulk request issued from
then on carries the directive.  Vacuum-xmax does not set the flag. -/
theorem bulk_wait_for_shards_spec :
    (∀ (done : Nat → Bool) (L : Nat) (s s' : BulkState),
       ElasticsearchBulkDeleteRowByXmin done L s = Except.ok s' →
       s'.waitForActiveShards = true
       ∧ ∀ r ∈ s'.requests.drop s.requests.length, r.waitForActiveShards = true)
    ∧ (∀ (done : Nat → Bool) (L : Nat) (s s' : BulkState),
       ElasticsearchBulkDeleteRowByXmax done L s = Except.ok s' →
       s'.waitForActiveShards = true
       ∧ ∀ r ∈ s'.requests.drop s.requests.length, r.waitForActiveShards = true)
    ∧ (∀ (ops : List (BulkOp × (Nat → Bool))) (s s' : BulkState),
        s.waitForActiveShards = true → runBulkOps ops s = Except.ok s' →
        s'.waitForActiveShards = true
        ∧ ∀ r ∈ s'.requests.drop s.requests.length, r.waitForActiveShards = true)
    ∧ (∀ (done : Nat → Bool) (s s' : BulkState) (b : Bool),
        s.waitForActiveShards = true →
        ElasticsearchFinishBulkProcess done s = Except.ok (s', b) →
        s'.waitForActiveShards = true
        ∧ ∀ r ∈ s'.requests.drop s.requests.length, r.waitForActiveShards = true) := by
  refine ⟨?_, ?_, ?_, ?_⟩
  · intro done L s s' h
    obtain ⟨hw, t, hrq, hts⟩ :=
      applyBulkOp_wait_mono (BulkOp.deleteRowByXmin L) done
        { s with waitForActiveShards := true } s' rfl h
    refine ⟨hw, fun r hr => ?_⟩
    rw [show s'.requests = s.requests ++ t from hrq, List.drop_left] at hr
    exact hts r hr
  · intro done L s s' h
    obtain ⟨hw, t, hrq, hts⟩ :=
      applyBulkOp_wait_mono (BulkOp.deleteRowByXmax L) done
        { s with waitForActiveShards := true } s' rfl h
    refine ⟨hw, fun r hr => ?_⟩
    rw [show s'.requests = s.requests ++ t from hrq, List.drop_left] at hr
    exact hts r hr
  · intro ops s s' hw h
    obtain ⟨hw', t, hrq, hts⟩ := runBulkOps_wait_mono ops s s' hw h
    refine ⟨hw', fun r hr => ?_⟩
    rw [hrq, List.drop_left] at hr
    exact hts r hr
  · intro done s s' b hw h
    obtain ⟨hw', t, hrq, hts⟩ := finish_wait_mono done s s' b hw h
    refine ⟨hw', fun r hr => ?_⟩
    rw [hrq, List.drop_left] at hr
    exact hts r hr

/-- Witness: a delete-by-xmin append on a fresh session leaves the flag
set. -/
theorem bulk_wait_for_shards_spec_witness :
    bulkFreshAfterDelete.waitForActiveShards = true :=
  (bulk_wait_for_shards_spec.1 (fun _ => false) 5 bulkFresh
    bulkFreshAfterDelete rfl).1

/- ------------------------------------------------------------------ -/
/- C7: buffer pool capacity                                            -/
/- ------------------------------------------------------------------ -/

lemma countP_isNone_replicate_some (n : Nat) :
    (List.replicate n (some 0 : Option Nat)).countP (fun x => x.isNone) = 0 := by
  induction n with
  | zero => rfl
  | succ k ih => rw [List.replicate_succ, List.countP_cons]; simp [ih]

/-- C7: a bulk session starts with exactly `concurrency + 1` pool slots
(one of them checked out as the current buffer), no operation changes the
slot count, the number of simultaneously checked-out buffers can never
exceed the slot count, and checking out from a fully exhausted pool is an
immediate fatal error. -/
theorem buffer_pool_capacity_spec :
    (∀ (batchSize conc : Nat) (sr : Bool) (s : BulkState),
       ElasticsearchStartBulkProcess batchSize conc sr = Except.ok s →
       s.pool.length = conc + 1 ∧ checkedOutCount s = 1)
    ∧ (∀ (ops : List (BulkOp × (Nat → Bool))) (s s' : BulkState),
        runBulkOps ops s = Except.ok s' → s'.pool.length = s.pool.length)
    ∧ (∀ s : BulkState, checkedOutCount s ≤ s.pool.length)
    ∧ (∀ pool : List (Option Nat), (∀ x ∈ pool, x = none) →
        checkout_batch_pool pool = Except.error "Unable to checkout from batch pool") := by
  refine ⟨?_, ?_, ?_, ?_⟩
  · intro batchSize conc sr s h
    have heq : ElasticsearchStartBulkProcess batchSize conc sr = Except.ok
        { batchSize := batchSize, shouldRefresh := sr, concurrency := conc,
          pool := none :: List.replicate conc (some 0),
          currentLen := 0, currentIdx := 0,
          nrows := 0, ntotal := 0, nrequests := 0,
          nindex := 0, nupdate := 0, ndelete := 0, nvacuum := 0, nxid := 0,
          waitForActiveShards := false, inFlight := [], requests := [] } := rfl
    rw [heq] at h
    rw [← Except.ok.inj h]
    constructor
    · simp
    · show (none :: List.replicate conc (some 0)).countP (fun x => x.isNone) = 1
      rw [List.countP_cons]
      simp [countP_isNone_replicate_some]
  · intro ops
    induction ops with
    | nil =>
      intro s s' h
      rw [runBulkOps] at h
      rw [← Except.ok.inj h]
    | cons hd tl ih =>
      intro s s' h
      obtain ⟨op, dn⟩ := hd
      rw [runBulkOps] at h
      cases hstep : applyBulkOp op dn s with
      | error e => rw [hstep] at h; exact Except.noConfusion h
      | ok s1 =>
        rw [hstep] at h
        rw [ih s1 s' h]
        exact applyBulkOp_pool_length op dn s s1 hstep
  · intro s
    exact List.countP_le_length _
  · intro pool hnone
    rw [checkout_batch_pool, checkout_scan_all_none pool hnone]

/-- Witness: the two-slot pool with every slot empty fails checkout
fatally. -/
theorem buffer_pool_capacity_spec_witness :
    checkout_batch_pool [none, none]
      = Except.error "Unable to checkout from batch pool" :=
  buffer_pool_capacity_spec.2.2.2 [none, none] (by decide)

lemma foldr_pages_length (pages : List (Nat × Option (List Nat))) :
    (pages.foldr (fun p acc => pageHits p ++ acc) []).length
      = (pages.map (fun p => (pageHits p).length)).sum := by
  induction pages with
  | nil => rfl
  | cons p ps ih => simp [List.foldr_cons, ih]

lemma scroll_step (s : ScrollState) (hwf : ScrollWF s) (hlt : s.cnt < s.total) :
    ∃ x s', ElasticsearchGetNextItemPointer s = Except.ok (x, s')
      ∧ s'.cnt = s.cnt + 1 ∧ s'.total = s.total
      ∧ (s.currpos < s.nhits → s'.currpos = s.currpos + 1)
      ∧ ScrollWF s'
      ∧ remainingHits s = x :: remainingHits s' := by
  obtain ⟨⟨h, hh, hnh, hpos⟩, hpages, hcount⟩ := hwf
  by_cases hc : s.currpos = s.nhits
  · have hdrop : (s.hits.getD []).drop s.currpos = [] := by
      rw [hh, Option.getD_some, hc, hnh, List.drop_length]
    cases hps : s.pages with
    | nil =>
      exfalso
      rw [remainingHits, hdrop, hps] at hcount
      simp at hcount
      omega
    | cons pr rest =>
      obtain ⟨tok, oh⟩ := pr
      obtain ⟨l, hl, hlne⟩ := hpages (tok, oh) (by rw [hps]; exact List.mem_cons_self _ _)
      simp only at hl
      subst hl
      cases l with
      | nil => exact absurd rfl hlne
      | cons a as =>
        have hrem : remainingHits s
            = a :: (as ++ rest.foldr (fun p acc => pageHits p ++ acc) []) := by
          rw [remainingHits, hdrop, hps]
          simp [pageHits]
        refine ⟨a,
          ({ s with
              scrollId := tok,
              cnt := s.cnt + 1,
              currpos := 1,
              hits := some (a :: as),
              nhits := (a :: as).length,
              pages := rest,
              nfetches := s.nfetches + 1,
              fetchLog := s.fetchLog ++ [s.scrollId],
              scratchResets := s.scratchResets + 1 } : ScrollState),
            ?_, rfl, rfl, (by intro hcp; omega), ?_, ?_⟩
        · unfold ElasticsearchGetNextItemPointer
          rw [if_neg (by omega : ¬ s.total ≤ s.cnt), if_pos hc, hps, hh]
          rfl
        · refine ⟨⟨a :: as, rfl, rfl, by simp⟩, ?_, ?_⟩
          · intro p hp
            exact hpages p (by rw [hps]; exact List.mem_cons_of_mem _ hp)
          · rw [hrem] at hcount
            simp only [remainingHits, Option.getD_some, List.drop_succ_cons,
              List.drop_zero]
            simp only [List.length_cons] at hcount
            omega
        · rw [hrem]
          simp only [remainingHits, Option.getD_some, List.drop_succ_cons,
            List.drop_zero]
  · have hlt2 : s.currpos < h.length := by
      rw [hnh] at hc
      omega
    have hrem : remainingHits s
        = h.get ⟨s.currpos, hlt2⟩
            :: (h.drop (s.currpos + 1)
                ++ s.pages.foldr (fun p acc => pageHits p ++ acc) []) := by
      rw [remainingHits, hh, Option.getD_some, List.drop_eq_getElem_cons hlt2,
        List.cons_append]
      rfl
    refine ⟨h.get ⟨s.currpos, hlt2⟩,
      ({ s with
          currpos := s.currpos + 1,
          cnt := s.cnt + 1 } : ScrollState),
      ?_, rfl, rfl, (fun hcp => rfl), ?_, ?_⟩
    · unfold ElasticsearchGetNextItemPointer
      rw [if_neg (by omega : ¬ s.total ≤ s.cnt), if_neg hc]
      simp only [hh, List.get?_eq_get hlt2]
    · refine ⟨⟨h, hh, hnh, (by omega : s.currpos + 1 ≤ h.length)⟩, hpages, ?_⟩
      rw [hrem] at hcount
      simp only [remainingHits, hh, Option.getD_some]
      simp only [List.length_cons, List.length_append, List.length_drop] at hcount ⊢
      omega
    · rw [hrem]
      simp only [remainingHits, hh, Option.getD_some]

lemma next_past_total (s : ScrollState) (hk : s.total ≤ s.cnt) :
    ElasticsearchGetNextItemPointer s
      = Except.error "Attempt to read past total number of hits" := by
  unfold ElasticsearchGetNextItemPointer
  rw [if_pos hk]

lemma runNext_complete (k : Nat) :
    ∀ s : ScrollState, ScrollWF s → s.cnt + k = s.total →
    ∃ s', runNext k s = Except.ok (remainingHits s, s')
      ∧ s'.cnt = s'.total ∧ s'.total = s.total := by
  induction k with
  | zero =>
    intro s hwf hk
    have hrem : remainingHits s = [] := by
      have hcount := hwf.2.2
      exact List.eq_nil_of_length_eq_zero (by omega)
    refine ⟨s, ?_, by omega, rfl⟩
    rw [runNext, hrem]
  | succ n ih =>
    intro s hwf hk
    obtain ⟨x, s', hnext, hcnt, htot, hcp, hwf', hrem⟩ :=
      scroll_step s hwf (by omega)
    obtain ⟨s'', hrun, h1, h2⟩ := ih s' hwf' (by omega)
    refine ⟨s'', ?_, h1, by omega⟩
    simp only [runNext, hnext, hrun, hrem]

/-- C2: for every scroll cursor, a successful `next` happens only while
the consumed count is below the total fixed at open time, advances the
consumed count (and, within a page, the position) by exactly one, and
preserves the invariant `consumed ≤ total`; calling `next` with
`consumed = total` raises the fatal past-total error; and from an open
call whose backend holds exactly `total` hits, `next` called exactly
`total` times yields each hit exactly once in order, after which one more
call is fatal. -/
theorem scroll_consume_total_spec :
    (∀ (s : ScrollState) (x : Nat) (s' : ScrollState), ScrollWF s →
       ElasticsearchGetNextItemPointer s = Except.ok (x, s') →
       s.cnt < s.total ∧ s'.cnt = s.cnt + 1 ∧ s'.total = s.total
       ∧ s'.cnt ≤ s'.total
       ∧ (s.currpos < s.nhits → s'.currpos = s.currpos + 1)
       ∧ ScrollWF s')
    ∧ (∀ s : ScrollState, s.cnt = s.total →
        ElasticsearchGetNextItemPointer s
          = Except.error "Attempt to read past total number of hits")
    ∧ (∀ (resp : SearchResponse) (pages : List (Nat × Option (List Nat)))
         (h : List Nat),
        resp.hits = some h → 0 < resp.total →
        (∀ p ∈ pages, ∃ l, p.2 = some l ∧ l ≠ []) →
        resp.total = h.length + (pages.map (fun p => (pageHits p).length)).sum →
        ∃ s', runNext resp.total (ElasticsearchOpenScroll resp pages)
            = Except.ok (h ++ pages.foldr (fun p acc => pageHits p ++ acc) [], s')
          ∧ s'.cnt = s'.total
          ∧ ElasticsearchGetNextItemPointer s'
              = Except.error "Attempt to read past total number of hits") := by
  refine ⟨?_, ?_, ?_⟩
  · intro s x s' hwf h
    by_cases hlt : s.cnt < s.total
    · obtain ⟨x0, s0, hnext, hcnt, htot, hcp, hwf', hrem⟩ := scroll_step s hwf hlt
      obtain ⟨hx, hs⟩ := Prod.mk.inj (Except.ok.inj (h.symm.trans hnext))
      subst hx
      rw [← hs] at hcnt htot hcp hwf'
      exact ⟨hlt, hcnt, htot, by omega, hcp, hwf'⟩
    · rw [next_past_total s (by omega)] at h
      exact absurd h (by simp)
  · intro s hk
    exact next_past_total s (by omega)
  · intro resp pages h hh htot hpages htots
    have hwf : ScrollWF (ElasticsearchOpenScroll resp pages) := by
      refine ⟨⟨h, ?_, ?_, ?_⟩, hpages, ?_⟩
      · simp [ElasticsearchOpenScroll, hh, htot]
      · simp [ElasticsearchOpenScroll, hh, htot]
      · simp [ElasticsearchOpenScroll]
      · show 0 + (remainingHits _).length = resp.total
        rw [remainingHits]
        simp only [ElasticsearchOpenScroll, if_pos htot, hh, Option.getD_some,
          List.drop_zero, List.length_append, foldr_pages_length]
        omega
    have hro : remainingHits (ElasticsearchOpenScroll resp pages)
        = h ++ pages.foldr (fun p acc => pageHits p ++ acc) [] := by
      rw [remainingHits]
      simp only [ElasticsearchOpenScroll, if_pos htot, hh, Option.getD_some,
        List.drop_zero]
    obtain ⟨s', hrun, h1, h2⟩ :=
      runNext_complete resp.total (ElasticsearchOpenScroll resp pages) hwf
        (by simp [ElasticsearchOpenScroll])
    rw [hro] at hrun
    exact ⟨s', hrun, h1, next_past_total s' (by omega)⟩

/-- Witness: a one-hit cursor that has consumed nothing can take a
successful step. -/
theorem scroll_consume_total_spec_witness :
    scrollOneHit.cnt < scrollOneHit.total :=
  (scroll_consume_total_spec.1 scrollOneHit 9
    ({ scrollOneHit with currpos := 1, cnt := 1 } : ScrollState)
    ⟨⟨[9], rfl, rfl, by decide⟩, by simp [scrollOneHit], by decide⟩ rfl).1

/-- C8: when the current page is exhausted (`currpos = nhits`) and hits
remain, `next` issues exactly one continuation fetch carrying the stored
token, replaces the stored token with the one in the response, resets the
position to zero (then advances past the hit it extracts), and discards
the previous page's scratch memory when one exists; a call inside a page
issues no fetch and keeps the token; and the spec's 25-hit scenario with
pages of 10, 10 and 5 incurs exactly 2 continuation fetches over 25
calls. -/
theorem scroll_continuation_fetch_spec :
    (∀ (s : ScrollState) (tok a : Nat) (as : List Nat)
       (rest : List (Nat × Option (List Nat))),
       s.cnt < s.total → s.currpos = s.nhits →
       s.pages = (tok, some (a :: as)) :: rest →
       ElasticsearchGetNextItemPointer s = Except.ok (a,
         { s with
             scrollId := tok,
             cnt := s.cnt + 1,
             currpos := 1,
             hits := some (a :: as),
             nhits := (a :: as).length,
             pages := rest,
             nfetches := s.nfetches + 1,
             fetchLog := s.fetchLog ++ [s.scrollId],
             scratchResets := s.scratchResets
               + (if s.hits.isSome then 1 else 0) }))
    ∧ (∀ (s : ScrollState) (x : Nat) (s' : ScrollState),
        s.currpos < s.nhits →
        ElasticsearchGetNextItemPointer s = Except.ok (x, s') →
        s'.nfetches = s.nfetches ∧ s'.scrollId = s.scrollId
        ∧ s'.fetchLog = s.fetchLog)
    ∧ ((runNext 25 scrollScenario25).toOption.map
        (fun p => (p.2.nfetches, p.2.fetchLog, p.1.length))
        = some (2, [0, 1], 25)) := by
  refine ⟨?_, ?_, ?_⟩
  · intro s tok a as rest hlt hc hps
    unfold ElasticsearchGetNextItemPointer
    rw [if_neg (by omega : ¬ s.total ≤ s.cnt), if_pos hc, hps]
    rfl
  · intro s x s' hcp h
    unfold ElasticsearchGetNextItemPointer at h
    by_cases ht : s.total ≤ s.cnt
    · rw [if_pos ht] at h
      exact absurd h (by simp)
    · rw [if_neg ht, if_neg (by omega : ¬ s.currpos = s.nhits)] at h
      replace h : (match s.hits with
        | none => Except.error "No results found when loading next scroll context"
        | some hs =>
          match hs.get? s.currpos with
          | none => Except.error "hit entry out of range"
          | some x0 =>
            Except.ok (x0,
              { s with currpos := s.currpos + 1, cnt := s.cnt + 1 }))
        = Except.ok (x, s') := h
      cases hh : s.hits with
      | none => rw [hh] at h; exact absurd h (by simp)
      | some hs =>
        rw [hh] at h
        replace h : (match hs.get? s.currpos with
          | none => Except.error "hit entry out of range"
          | some x0 =>
            Except.ok (x0,
              { s with
                  hits := some hs,
                  currpos := s.currpos + 1,
                  cnt := s.cnt + 1 }))
          = Except.ok (x, s') := h
        cases hg : hs.get? s.currpos with
        | none => rw [hg] at h; exact absurd h (by simp)
        | some x0 =>
          rw [hg] at h
          obtain ⟨hx, hs'⟩ := Prod.mk.inj (Except.ok.inj h)
          rw [← hs']
          exact ⟨rfl, rfl, rfl⟩
  · rfl

/-- Witness: a cursor at the end of its page fetches the pending page,
adopting token 43 after logging a fetch with stored token 42. -/
theorem scroll_continuation_fetch_spec_witness :
    ElasticsearchGetNextItemPointer scrollAtPageEnd
      = Except.ok (7,
        { scrollAtPageEnd with
            scrollId := 43,
            cnt := 2,
            currpos := 1,
            hits := some [7],
            nhits := 1,
            pages := [],
            nfetches := 1,
            fetchLog := [42],
            scratchResets := 1 }) :=
  scroll_continuation_fetch_spec.1 scrollAtPageEnd 43 7 [] []
    (by decide) (by decide) rfl
